import Mathlib

/-!
Shallow embedding of the Twitch token-lifecycle and stream-query controller
(`src/controllers/twitch.go` of bcambl/rtmpauthd), together with theorems
settling the specification claims about it.

Modelling conventions:
- The embedded bbolt store is reduced to the single key this module touches
  (`twitchAccessToken` in `ConfigBucket`): `DB.token` is the byte value under
  that key (`none` when the key is absent).  `DB.putError`, when `some e`,
  means the store's `Put` fails with error `e` during a write transaction.
- Go errors are modelled as `Except String`; a function that mutates the
  store returns the new `DB`; functions that perform HTTP I/O additionally
  return the list of HTTP calls they issued, in order.
- Network behaviour is an oracle `Env`: the outcome of the introspection GET
  (`validate`), of the OAuth2 client-credentials grant (`tokenGrant`, keyed by
  client id and secret), and of the helix streams GET (`streams`, keyed by URL
  and bearer token; a transport error and a JSON decode error are both an
  `Except.error`, exactly as both surface as a plain `error` in the source).
-/

namespace Rtmpauthd

/-- `StreamData` from the source: inner record of the helix streams response.
The Go field `Type` is rendered `type_` because `Type` is reserved in Lean. -/
structure StreamData where
  ID : String
  UserID : String
  UserName : String
  GameID : String
  type_ : String
  Title : String
  ViewerCount : Int
  StartedAt : String
deriving Repr, DecidableEq

/-- `TwitchStreamsResponse` from the source: the decoded JSON body. -/
structure TwitchStreamsResponse where
  Data : List StreamData
deriving Repr, DecidableEq

/-- A publisher entry as consumed by `getStreams`: display `Name` and the
optional `TwitchStream` stream-channel identifier. -/
structure Publisher where
  Name : String
  TwitchStream : String
deriving Repr, DecidableEq

/-- The configuration fields `getStreams` and `getNewAuthToken` read. -/
structure Config where
  TwitchClientID : String
  TwitchClientSecret : String
deriving Repr, DecidableEq

/-- The embedded store, reduced to the one key this module uses.
`token` is the byte string stored under `twitchAccessToken` in
`ConfigBucket` (`none` when absent).  `putError = some e` means the store's
`Put` fails with error `e` inside a write transaction. -/
structure DB where
  token : Option String
  putError : Option String
deriving Repr, DecidableEq

/-- One HTTP call made by the controller, for tracing. -/
inductive HTTPCall where
  | validate (token : String)
  | refreshGrant
  | streams (url : String)
deriving Repr, DecidableEq

/-- `defaultClientID` constant from the source. -/
def defaultClientID : String := "abcd1234"

/-- `defaultClientSecret` constant from the source. -/
def defaultClientSecret : String := "abcd1234"

/-- Network oracle: outcomes of the three kinds of HTTP calls, plus the
publisher registry (see `getAllPublisher`). -/
structure Env where
  validate : String → Except String Unit
  tokenGrant : String → String → Except String String
  publishers : Except String (List Publisher)
  streams : String → String → Except String TwitchStreamsResponse

/-- `getCachedAccessToken` from the source: read-only transaction fetching
`twitchAccessToken`; `Get` yields nil for an absent key, and the
`len(tokenBytes) < 1` check treats absent and zero-length identically. -/
def getCachedAccessToken (db : DB) : Except String String :=
  let tokenBytes := db.token.getD ""
  if tokenBytes.length < 1 then
    .error "cached twitch access token not found in db"
  else
    .ok tokenBytes

/-- `updateCachedAccessToken` from the source.  The source rejects an empty
token, then runs a write transaction whose `Put` error is captured in the
local `err` variable — but the function ends with an unconditional
`return nil`, so the captured error is discarded and the caller always sees
success for a non-empty token.  We model that behaviour faithfully. -/
def updateCachedAccessToken (db : DB) (accessToken : String) :
    Except String Unit × DB :=
  if accessToken = "" then
    (.error "updateCachedAccessToken: no token provided", db)
  else
    match db.putError with
    | some _ => (.ok (), db)
    | none => (.ok (), { db with token := some accessToken })

/-- `validateAccessToken` from the source: GET on the introspection endpoint
with the token in the Authorization header; a transport error or a non-200
status is an error.  Both are folded into the oracle `env.validate`. -/
def validateAccessToken (env : Env) (accessToken : String) :
    Except String Unit × List HTTPCall :=
  (env.validate accessToken, [.validate accessToken])

/-- `getNewAuthToken` from the source: run the OAuth2 client-credentials
grant with the configured id and secret; on success persist the returned
access token via `updateCachedAccessToken`; propagate either failure. -/
def getNewAuthToken (cfg : Config) (env : Env) (db : DB) :
    Except String Unit × DB × List HTTPCall :=
  match env.tokenGrant cfg.TwitchClientID cfg.TwitchClientSecret with
  | .error e => (.error e, db, [.refreshGrant])
  | .ok accessToken =>
    match updateCachedAccessToken db accessToken with
    | (.error e, db') => (.error e, db', [.refreshGrant])
    | (.ok _, db') => (.ok (), db', [.refreshGrant])

/-- `validateClientCredentials` from the source: reject the placeholder
client id or secret before any network call. -/
def validateClientCredentials (cfg : Config) : Except String Unit :=
  if cfg.TwitchClientID = defaultClientID then
    .error "Default twitch client id value detected. Skipping twitch call"
  else if cfg.TwitchClientSecret = defaultClientSecret then
    .error "Default twitch client secret value detected. Skipping twitch call"
  else
    .ok ()

/-- `twitchAuthToken` from the source: read the cached token (failing
immediately when absent), validate it, refresh on validation failure, then
unconditionally re-read the cache and return that value. -/
def twitchAuthToken (cfg : Config) (env : Env) (db : DB) :
    Except String String × DB × List HTTPCall :=
  match getCachedAccessToken db with
  | .error e => (.error e, db, [])
  | .ok token =>
    match validateAccessToken env token with
    | (.ok _, calls1) =>
      match getCachedAccessToken db with
      | .error e => (.error e, db, calls1)
      | .ok token2 => (.ok token2, db, calls1)
    | (.error _, calls1) =>
      match getNewAuthToken cfg env db with
      | (.error e, db', calls2) => (.error e, db', calls1 ++ calls2)
      | (.ok _, db', calls2) =>
        match getCachedAccessToken db' with
        | .error e => (.error e, db', calls1 ++ calls2)
        | .ok token2 => (.ok token2, db', calls1 ++ calls2)

/-- Modelled from the spec: `getAllPublisher` is repository code outside the
given source excerpt ("the publisher/channel registry (assumed to supply a
list of channel names)"); per the spec it returns the current list of
publisher entries, each exposing `Name` and an optional `TwitchStream`
identifier, and may fail.  We model it as the oracle `env.publishers`. -/
def getAllPublisher (env : Env) : Except String (List Publisher) :=
  env.publishers

/-- One iteration of the query-building loop of `getStreams`: skip a
publisher with an empty `TwitchStream`; otherwise append `&` to a non-empty
accumulator and then `user_login=` followed by the publisher's `Name`. -/
def queryStep (userQuery : String) (p : Publisher) : String :=
  if p.TwitchStream = "" then
    userQuery
  else
    let userQuery := if userQuery ≠ "" then userQuery ++ "&" else userQuery
    userQuery ++ "user_login=" ++ p.Name

/-- The query-building loop of `getStreams` from the source, starting from
the empty `userQuery`. -/
def buildUserQuery (publishers : List Publisher) : String :=
  publishers.foldl queryStep ""

/-- `getStreams` from the source: check credentials, obtain a token, fetch
the publishers, build the query, issue the helix streams GET (with client-id
and bearer headers), and decode the JSON body into `StreamData` records. -/
def getStreams (cfg : Config) (env : Env) (db : DB) :
    Except String (List StreamData) × DB × List HTTPCall :=
  match validateClientCredentials cfg with
  | .error e => (.error e, db, [])
  | .ok _ =>
    match twitchAuthToken cfg env db with
    | (.error e, db', calls) => (.error e, db', calls)
    | (.ok accessToken, db', calls) =>
      match getAllPublisher env with
      | .error e => (.error e, db', calls)
      | .ok publishers =>
        let userQuery := buildUserQuery publishers
        let userStreamURL := "https://api.twitch.tv/helix/streams/?" ++ userQuery
        match env.streams userStreamURL accessToken with
        | .error e => (.error e, db', calls ++ [.streams userStreamURL])
        | .ok streamResponse =>
          (.ok streamResponse.Data, db', calls ++ [.streams userStreamURL])

/-- Spec-side description of the query string: the `user_login=<Name>` terms
of the publishers with a non-empty `TwitchStream`, in list order. -/
def queryTerms (publishers : List Publisher) : List String :=
  (publishers.filter (fun p => p.TwitchStream ≠ "")).map
    (fun p => "user_login=" ++ p.Name)

/-- Spec-side description of joining terms with a single ampersand. -/
def joinAmp : List String → String
  | [] => ""
  | [t] => t
  | t :: t2 :: ts => t ++ "&" ++ joinAmp (t2 :: ts)

/-- The invariant of the stored token value: absent or non-empty. -/
def tokenInv (db : DB) : Prop := db.token ≠ some ""

instance (db : DB) : Decidable (tokenInv db) := by
  unfold tokenInv; infer_instance

/-- A configuration equal to neither placeholder. -/
def cfgGood : Config :=
  { TwitchClientID := "realid", TwitchClientSecret := "realsecret" }

/-- A configuration whose client id is the reserved placeholder. -/
def cfgPlaceholder : Config :=
  { TwitchClientID := "abcd1234", TwitchClientSecret := "s3cret" }

/-- A store holding the non-empty token "tok1", writes succeeding. -/
def dbTok1 : DB := { token := some "tok1", putError := none }

/-- A store with no token ever persisted. -/
def dbEmptyStore : DB := { token := none, putError := none }

/-- An oracle where validation succeeds, the grant yields "tok2", the
registry is empty and the streams endpoint answers with no data. -/
def envHappy : Env :=
  { validate := fun _ => .ok ()
    tokenGrant := fun _ _ => .ok "tok2"
    publishers := .ok []
    streams := fun _ _ => .ok { Data := [] } }

/-- An oracle where introspection rejects every token (non-200 status) and
the grant yields "tok2". -/
def envInvalid : Env :=
  { validate := fun _ => .error "token validation response status code != 200"
    tokenGrant := fun _ _ => .ok "tok2"
    publishers := .ok []
    streams := fun _ _ => .ok { Data := [] } }

/-! ### Helper lemmas -/

/-- A non-empty string does not have length below one. -/
theorem string_not_len_lt_one (s : String) (h : s ≠ "") : ¬ s.length < 1 := by
  intro hl
  apply h
  have h0 : s.data.length = 0 := Nat.lt_one_iff.mp hl
  have hd : s.data = [] := List.length_eq_zero.mp h0
  cases s
  simp_all

/-- Appending to a non-empty string stays non-empty. -/
theorem string_append_ne_empty (a b : String) (ha : a ≠ "") : a ++ b ≠ "" := by
  intro h
  apply ha
  have hd : a.data ++ b.data = [] := by
    have h2 := congrArg String.data h
    simpa [String.data_append] using h2
  have hda : a.data = [] := (List.append_eq_nil.mp hd).1
  cases a
  simp_all

/-- Reading the cache when a non-empty token is stored succeeds with it. -/
theorem getCached_ok (db : DB) (t : String) (hdb : db.token = some t)
    (ht : t ≠ "") : getCachedAccessToken db = .ok t := by
  simp [getCachedAccessToken, hdb, string_not_len_lt_one t ht]

/-- Reading the cache when the key is absent or zero-length fails. -/
theorem getCached_err (db : DB)
    (h : db.token = none ∨ db.token = some "") :
    getCachedAccessToken db
      = .error "cached twitch access token not found in db" := by
  rcases h with h | h <;> simp [getCachedAccessToken, h]

/-- The loop step ignores a publisher with an empty stream channel. -/
theorem queryStep_skip (q : String) (p : Publisher)
    (hp : p.TwitchStream = "") : queryStep q p = q := by
  simp [queryStep, hp]

/-- The loop step on a non-empty accumulator adds an ampersand-separated
term. -/
theorem queryStep_keep (q : String) (p : Publisher)
    (hp : p.TwitchStream ≠ "") (hq : q ≠ "") :
    queryStep q p = q ++ "&" ++ ("user_login=" ++ p.Name) := by
  unfold queryStep
  rw [if_neg hp, if_pos hq, String.append_assoc]

/-- The loop step on the empty accumulator starts with the bare term. -/
theorem queryStep_first (p : Publisher) (hp : p.TwitchStream ≠ "") :
    queryStep "" p = "user_login=" ++ p.Name := by
  simp [queryStep, hp]

/-- Unfolding the ampersand join over at least two terms. -/
theorem joinAmp_cons (t t2 : String) (ts : List String) :
    joinAmp (t :: t2 :: ts) = t ++ "&" ++ joinAmp (t2 :: ts) := rfl

/-- An empty-channel publisher contributes no term. -/
theorem queryTerms_cons_skip (p : Publisher) (rest : List Publisher)
    (hp : p.TwitchStream = "") :
    queryTerms (p :: rest) = queryTerms rest := by
  simp [queryTerms, List.filter_cons, hp]

/-- A publisher with a non-empty channel contributes its term in order. -/
theorem queryTerms_cons_keep (p : Publisher) (rest : List Publisher)
    (hp : p.TwitchStream ≠ "") :
    queryTerms (p :: rest)
      = ("user_login=" ++ p.Name) :: queryTerms rest := by
  simp [queryTerms, List.filter_cons, hp]

/-- Folding the query loop from a non-empty accumulator joins the remaining
terms after it. -/
theorem foldl_queryStep_ne (pubs : List Publisher) :
    ∀ q : String, q ≠ "" →
      pubs.foldl queryStep q = joinAmp (q :: queryTerms pubs) := by
  induction pubs with
  | nil => intro q hq; simp [queryTerms, joinAmp]
  | cons p rest ih =>
    intro q hq
    by_cases hp : p.TwitchStream = ""
    · rw [List.foldl_cons, queryStep_skip q p hp, queryTerms_cons_skip p rest hp]
      exact ih q hq
    · rw [List.foldl_cons, queryStep_keep q p hp hq, queryTerms_cons_keep p rest hp]
      have hq' : q ++ "&" ++ ("user_login=" ++ p.Name) ≠ "" :=
        string_append_ne_empty _ _ (string_append_ne_empty _ _ hq)
      rw [ih _ hq', joinAmp_cons]
      cases queryTerms rest with
      | nil => simp [joinAmp, String.append_assoc]
      | cons t2 ts' => simp [joinAmp_cons, String.append_assoc]

/-- The query string built by the loop of getStreams is exactly the
ampersand-join of the terms of the publishers with a non-empty stream
channel, in list order. -/
theorem buildUserQuery_spec (pubs : List Publisher) :
    buildUserQuery pubs = joinAmp (queryTerms pubs) := by
  unfold buildUserQuery
  induction pubs with
  | nil => rfl
  | cons p rest ih =>
    by_cases hp : p.TwitchStream = ""
    · rw [List.foldl_cons, queryStep_skip _ p hp, queryTerms_cons_skip p rest hp]
      exact ih
    · rw [List.foldl_cons, queryStep_first p hp, queryTerms_cons_keep p rest hp]
      exact foldl_queryStep_ne rest _ (string_append_ne_empty _ _ (by decide))

/-- Persisting never stores an empty token. -/
theorem tokenInv_update (db : DB) (h : tokenInv db) (s : String) :
    tokenInv (updateCachedAccessToken db s).2 := by
  by_cases hs : s = ""
  · simpa [updateCachedAccessToken, hs] using h
  · cases hpe : db.putError with
    | some e => simpa [updateCachedAccessToken, hs, hpe] using h
    | none => simp [updateCachedAccessToken, hs, hpe, tokenInv]

/-- The refresh path never stores an empty token. -/
theorem tokenInv_getNew (cfg : Config) (env : Env) (db : DB)
    (h : tokenInv db) : tokenInv (getNewAuthToken cfg env db).2.1 := by
  unfold getNewAuthToken
  cases env.tokenGrant cfg.TwitchClientID cfg.TwitchClientSecret with
  | error e => exact h
  | ok tok =>
    dsimp only
    have hup := tokenInv_update db h tok
    cases hres : updateCachedAccessToken db tok with
    | mk r db' =>
      rw [hres] at hup
      cases r <;> exact hup

/-- The whole token lifecycle never stores an empty token. -/
theorem tokenInv_twitchAuth (cfg : Config) (env : Env) (db : DB)
    (h : tokenInv db) : tokenInv (twitchAuthToken cfg env db).2.1 := by
  unfold twitchAuthToken validateAccessToken
  cases getCachedAccessToken db with
  | error e => exact h
  | ok token =>
    dsimp only
    cases env.validate token with
    | ok u =>
      dsimp only
      cases getCachedAccessToken db with
      | error e => exact h
      | ok t2 => exact h
    | error e =>
      dsimp only
      have hn := tokenInv_getNew cfg env db h
      cases hres : getNewAuthToken cfg env db with
      | mk r rest =>
        rw [hres] at hn
        cases rest with
        | mk db' calls2 =>
          cases r with
          | error e2 => exact hn
          | ok u =>
            dsimp only
            cases getCachedAccessToken db' with
            | error e2 => exact hn
            | ok t2 => exact hn

/-! ### Claims -/

/-- C1 (code bug): for a non-empty token against a store whose write
transaction fails, `updateCachedAccessToken` reports success and leaves the
old value in place — the store's write error is NOT propagated to the
caller.  The source captures the Put error in its local `err` but ends with
an unconditional `return nil`, so the failure is silently discarded,
contradicting the claim (and the evident intent of capturing `err`). -/
theorem C1_write_failure_discarded :
    (updateCachedAccessToken ⟨some "old", some "bolt: write failed"⟩ "tok1").1
        = .ok ()
      ∧ (updateCachedAccessToken ⟨some "old", some "bolt: write failed"⟩ "tok1").2
        = ⟨some "old", some "bolt: write failed"⟩ := by
  constructor <;> rfl

/-- C2: with a placeholder client id or secret, getStreams returns the
configuration error, leaves the store untouched, and issues no HTTP call
(no validation, no refresh, no streams request). -/
theorem C2_placeholder_credentials_no_http (cfg : Config) (env : Env)
    (db : DB)
    (h : cfg.TwitchClientID = defaultClientID ∨
         cfg.TwitchClientSecret = defaultClientSecret) :
    ∃ e, getStreams cfg env db = (.error e, db, []) := by
  rcases h with h | h
  · refine ⟨"Default twitch client id value detected. Skipping twitch call", ?_⟩
    simp [getStreams, validateClientCredentials, h]
  · by_cases hid : cfg.TwitchClientID = defaultClientID
    · refine ⟨"Default twitch client id value detected. Skipping twitch call", ?_⟩
      simp [getStreams, validateClientCredentials, hid]
    · refine ⟨"Default twitch client secret value detected. Skipping twitch call", ?_⟩
      simp [getStreams, validateClientCredentials, hid, h]

/-- Witness for C2 at a concrete placeholder configuration. -/
theorem C2_witness :
    ∃ e, getStreams cfgPlaceholder envHappy dbTok1 = (.error e, dbTok1, []) :=
  C2_placeholder_credentials_no_http cfgPlaceholder envHappy dbTok1 (Or.inl rfl)

/-- C3: starting from a cache holding a non-empty token that fails
validation, with a working store and a grant that yields a non-empty token,
twitchAuthToken issues exactly one refresh (client-credentials grant) call
and returns the token the refresh produced, which a subsequent cache read
also returns. -/
theorem C3_refresh_once_on_invalid (cfg : Config) (env : Env) (db : DB)
    (t newTok e : String) (hdb : db.token = some t) (ht : t ≠ "")
    (hput : db.putError = none)
    (hval : env.validate t = .error e)
    (hgrant : env.tokenGrant cfg.TwitchClientID cfg.TwitchClientSecret
        = .ok newTok)
    (hnew : newTok ≠ "") :
    twitchAuthToken cfg env db
        = (.ok newTok, { db with token := some newTok },
           [.validate t, .refreshGrant])
      ∧ (twitchAuthToken cfg env db).2.2.count .refreshGrant = 1
      ∧ getCachedAccessToken (twitchAuthToken cfg env db).2.1
          = .ok newTok := by
  have hc : getCachedAccessToken db = .ok t := getCached_ok db t hdb ht
  have hupd : updateCachedAccessToken db newTok
      = (.ok (), { db with token := some newTok }) := by
    simp [updateCachedAccessToken, hnew, hput]
  have hnewrd : getCachedAccessToken { db with token := some newTok }
      = .ok newTok := getCached_ok _ newTok rfl hnew
  have hmain : twitchAuthToken cfg env db
      = (.ok newTok, { db with token := some newTok },
         [.validate t, .refreshGrant]) := by
    simp [twitchAuthToken, validateAccessToken, hc, hval, getNewAuthToken,
      hgrant, hupd, hnewrd]
  refine ⟨hmain, ?_, ?_⟩
  · rw [hmain]; rfl
  · rw [hmain]; exact hnewrd

/-- Witness for C3: "tok1" fails introspection, the grant returns "tok2",
the cache then holds "tok2" and it is returned. -/
theorem C3_witness :
    twitchAuthToken cfgGood envInvalid dbTok1
        = (.ok "tok2", { token := some "tok2", putError := none },
           [.validate "tok1", .refreshGrant])
      ∧ (twitchAuthToken cfgGood envInvalid dbTok1).2.2.count .refreshGrant = 1
      ∧ getCachedAccessToken (twitchAuthToken cfgGood envInvalid dbTok1).2.1
          = .ok "tok2" :=
  C3_refresh_once_on_invalid cfgGood envInvalid dbTok1 "tok1" "tok2"
    "token validation response status code != 200" rfl (by decide) rfl rfl rfl
    (by decide)

/-- C4: persisting a non-empty token against a working store succeeds and a
subsequent cache read returns exactly that token. -/
theorem C4_persist_then_read (db : DB) (t : String) (ht : t ≠ "")
    (hput : db.putError = none) :
    (updateCachedAccessToken db t).1 = .ok ()
      ∧ getCachedAccessToken (updateCachedAccessToken db t).2 = .ok t := by
  have hupd : updateCachedAccessToken db t
      = (.ok (), { db with token := some t }) := by
    simp [updateCachedAccessToken, ht, hput]
  rw [hupd]
  exact ⟨rfl, getCached_ok _ t rfl ht⟩

/-- Witness for C4 at the token "tok9" over a store holding "tok1". -/
theorem C4_witness :
    (updateCachedAccessToken dbTok1 "tok9").1 = .ok ()
      ∧ getCachedAccessToken (updateCachedAccessToken dbTok1 "tok9").2
          = .ok "tok9" :=
  C4_persist_then_read dbTok1 "tok9" (by decide) rfl

/-- C5: persisting the empty string fails with the invalid-argument error
and performs no write: the store is left exactly as it was. -/
theorem C5_empty_persist_rejected (db : DB) :
    updateCachedAccessToken db ""
      = (.error "updateCachedAccessToken: no token provided", db) := by
  simp [updateCachedAccessToken]

/-- C6: with the token key absent or zero-length, the cache read fails with
the not-found error and twitchAuthToken fails immediately with that same
error, issuing no validation and no refresh call. -/
theorem C6_absent_token_fails_fast (cfg : Config) (env : Env) (db : DB)
    (h : db.token = none ∨ db.token = some "") :
    getCachedAccessToken db
        = .error "cached twitch access token not found in db"
      ∧ twitchAuthToken cfg env db
          = (.error "cached twitch access token not found in db", db, []) := by
  have hc := getCached_err db h
  exact ⟨hc, by simp [twitchAuthToken, hc]⟩

/-- Witness for C6 on a store with no token ever persisted. -/
theorem C6_witness :
    getCachedAccessToken dbEmptyStore
        = .error "cached twitch access token not found in db"
      ∧ twitchAuthToken cfgGood envHappy dbEmptyStore
          = (.error "cached twitch access token not found in db",
             dbEmptyStore, []) :=
  C6_absent_token_fails_fast cfgGood envHappy dbEmptyStore (Or.inl rfl)

/-- C7: with a cached non-empty token that passes validation,
twitchAuthToken returns the cached value, leaves the store unchanged, and
makes no refresh call. -/
theorem C7_valid_cached_no_refresh (cfg : Config) (env : Env) (db : DB)
    (t : String) (hdb : db.token = some t) (ht : t ≠ "")
    (hval : env.validate t = .ok ()) :
    twitchAuthToken cfg env db = (.ok t, db, [.validate t])
      ∧ HTTPCall.refreshGrant ∉ (twitchAuthToken cfg env db).2.2 := by
  have hc := getCached_ok db t hdb ht
  have hmain : twitchAuthToken cfg env db = (.ok t, db, [.validate t]) := by
    simp [twitchAuthToken, validateAccessToken, hc, hval]
  refine ⟨hmain, ?_⟩
  rw [hmain]
  simp

/-- Witness for C7 at the cached token "tok1" with passing validation. -/
theorem C7_witness :
    twitchAuthToken cfgGood envHappy dbTok1
        = (.ok "tok1", dbTok1, [.validate "tok1"])
      ∧ HTTPCall.refreshGrant ∉ (twitchAuthToken cfgGood envHappy dbTok1).2.2 :=
  C7_valid_cached_no_refresh cfgGood envHappy dbTok1 "tok1" rfl (by decide) rfl

/-- C9: every operation touching the persisted token preserves the
invariant that the stored value is absent or non-empty (no operation ever
persists the empty string), and a zero-length stored value reads exactly
like an absent one. -/
theorem C9_token_invariant (cfg : Config) (env : Env) (db : DB)
    (h : tokenInv db) :
    (∀ s, tokenInv (updateCachedAccessToken db s).2)
      ∧ tokenInv (getNewAuthToken cfg env db).2.1
      ∧ tokenInv (twitchAuthToken cfg env db).2.1
      ∧ ∀ pe, getCachedAccessToken { token := some "", putError := pe }
            = getCachedAccessToken { token := none, putError := pe } :=
  ⟨fun s => tokenInv_update db h s, tokenInv_getNew cfg env db h,
   tokenInv_twitchAuth cfg env db h, fun _ => rfl⟩

/-- Witness for C9: concrete invariant facts after an empty-token persist
attempt and after a full lifecycle run with a refresh. -/
theorem C9_witness :
    tokenInv (updateCachedAccessToken dbTok1 "").2
      ∧ tokenInv (twitchAuthToken cfgGood envInvalid dbTok1).2.1 :=
  ⟨(C9_token_invariant cfgGood envInvalid dbTok1 (by decide)).1 "",
   (C9_token_invariant cfgGood envInvalid dbTok1 (by decide)).2.2.1⟩

/-- C10: when no publisher has a non-empty TwitchStream (including an empty
registry), getStreams does not short-circuit: it still issues the streams
request with an empty query (URL ending in a question mark) and its outcome
is exactly the outcome of that request. -/
theorem C10_empty_selection_still_queries (cfg : Config) (env : Env)
    (db : DB) (t : String) (pubs : List Publisher)
    (hid : cfg.TwitchClientID ≠ defaultClientID)
    (hsec : cfg.TwitchClientSecret ≠ defaultClientSecret)
    (hdb : db.token = some t) (ht : t ≠ "")
    (hval : env.validate t = .ok ())
    (hpubs : getAllPublisher env = .ok pubs)
    (hempty : ∀ p ∈ pubs, p.TwitchStream = "") :
    (getStreams cfg env db).2.2
        = [.validate t, .streams "https://api.twitch.tv/helix/streams/?"]
      ∧ (getStreams cfg env db).1
          = (env.streams "https://api.twitch.tv/helix/streams/?" t).map
              TwitchStreamsResponse.Data
      ∧ (getStreams cfg env db).2.1 = db := by
  have hvcc : validateClientCredentials cfg = .ok () := by
    simp [validateClientCredentials, hid, hsec]
  have hauth : twitchAuthToken cfg env db = (.ok t, db, [.validate t]) := by
    have hc := getCached_ok db t hdb ht
    simp [twitchAuthToken, validateAccessToken, hc, hval]
  have hq : buildUserQuery pubs = "" := by
    have hfil : pubs.filter (fun p => p.TwitchStream ≠ "") = [] :=
      List.filter_eq_nil_iff.mpr (by intro p hp; simp [hempty p hp])
    rw [buildUserQuery_spec]
    unfold queryTerms
    rw [hfil]
    rfl
  cases hs : env.streams "https://api.twitch.tv/helix/streams/?" t with
  | error e =>
    refine ⟨?_, ?_, ?_⟩ <;>
      simp [getStreams, hvcc, hauth, hpubs, hq, String.append_empty, hs,
        Except.map]
  | ok r =>
    refine ⟨?_, ?_, ?_⟩ <;>
      simp [getStreams, hvcc, hauth, hpubs, hq, String.append_empty, hs,
        Except.map]

/-- Witness for C10 on the empty publisher registry. -/
theorem C10_witness :
    (getStreams cfgGood envHappy dbTok1).2.2
        = [.validate "tok1", .streams "https://api.twitch.tv/helix/streams/?"]
      ∧ (getStreams cfgGood envHappy dbTok1).1
          = (envHappy.streams "https://api.twitch.tv/helix/streams/?" "tok1").map
              TwitchStreamsResponse.Data
      ∧ (getStreams cfgGood envHappy dbTok1).2.1 = dbTok1 :=
  C10_empty_selection_still_queries cfgGood envHappy dbTok1 "tok1" []
    (by decide) (by decide) rfl (by decide) rfl rfl (by simp)

/-- C8: the query string built by getStreams is exactly the terms
`user_login=<Name>` of the publishers with a non-empty `TwitchStream`, in
list order, joined by single ampersands: empty-channel publishers
contribute nothing, the key is the display `Name`, and repeated names are
not deduplicated. -/
theorem C8_query_string_is_joined_terms (publishers : List Publisher) :
    buildUserQuery publishers
      = joinAmp ((publishers.filter (fun p => p.TwitchStream ≠ "")).map
          (fun p => "user_login=" ++ p.Name)) :=
  buildUserQuery_spec publishers

end Rtmpauthd
